import Mathlib

/-!
Verification development for the pymetastore repository.

Two parts are embedded:

1. The Hive type-descriptor tokenizer and recursive-descent parser
   (the repository's `htypes` module).  That module's source is not in the
   repository snapshot - only its test suite is - so the definitions below
   are modelled from the specification (tokenizer §4.1, grammar and
   validation rules §4.2, data model §3, error messages §7/§8).

2. The pieces of `pymetastore/metastore.py` that the remaining claims are
   about: `HSortingColumn.__init__`, `HiveBucketProperty.__init__` (its
   mutable default argument), `HMS.get_partitions`, and the bucketing
   version computation inside `HMS.get_table`.  These are translated
   directly from the source, with Python's dynamic-typing behaviours
   (cross-type `==`, `isinstance`, default-argument object sharing) made
   explicit where the claims hinge on them.
-/

namespace PyMetastore

/-! ### Token (modelled from the spec, §3)

`Modelled from the spec:` the `Token` class of the missing `htypes` module.
A token is `{position, text, isWord}`; constructing a token with empty or
absent text is a contract violation (a `ValueError`), and the canonical
textual form is `"{position}:{text}"`. -/

structure Token where
  position : Nat
  text : String
  isWord : Bool
deriving DecidableEq, Repr

/-- `Modelled from the spec:` the checked constructor of `Token`.  The text
argument is `Option String` to represent Python's `None`; both `None` and
the empty string are rejected with a `ValueError`. -/
def Token.create (position : Nat) (text : Option String) (isWord : Bool) :
    Except String Token :=
  match text with
  | none => .error "ValueError: token text cannot be empty or None"
  | some t =>
      if t = "" then .error "ValueError: token text cannot be empty or None"
      else .ok ⟨position, t, isWord⟩

/-- `Modelled from the spec:` the canonical textual form `"{position}:{text}"`. -/
def Token.str (t : Token) : String :=
  toString t.position ++ ":" ++ t.text

/-! ### Tokenizer (modelled from the spec, §4.1) -/

/-- `Modelled from the spec:` a word character is alphanumeric or underscore. -/
def isWordChar (c : Char) : Bool :=
  c.isAlphanum || c = '_'

/-- `Modelled from the spec:` the structural punctuation characters. -/
def isPunctChar (c : Char) : Bool :=
  c = '<' || c = '>' || c = '(' || c = ')' || c = ',' || c = ':'

/-- `Modelled from the spec:` the tokenizer scan.  `fuel` bounds the
recursion (the caller passes the input length, which always suffices
because every step consumes at least one character); `pos` is the offset
of the first character of `cs` in the original input. -/
def tokenizeAux : Nat → List Char → Nat → List Token
  | 0, _, _ => []
  | _, [], _ => []
  | Nat.succ fuel, c :: rest, pos =>
      if isWordChar c then
        let run := List.takeWhile isWordChar (c :: rest)
        let rest2 := List.dropWhile isWordChar (c :: rest)
        ⟨pos, String.mk run, true⟩ :: tokenizeAux fuel rest2 (pos + run.length)
      else if isPunctChar c then
        ⟨pos, String.mk [c], false⟩ :: tokenizeAux fuel rest (pos + 1)
      else
        tokenizeAux fuel rest (pos + 1)

/-- `Modelled from the spec:` `tokenize(input) -> ordered sequence of Token`
(spec §4.1): maximal alphanumeric/underscore runs become word tokens, each
structural punctuation character becomes its own punctuation token, any
other character is skipped. -/
def tokenize (s : String) : List Token :=
  tokenizeAux s.length s.data 0

/-! ### Type model (modelled from the spec, §3) -/

inductive PrimitiveCategory where
  | VOID | BOOLEAN | BYTE | SHORT | INT | LONG | FLOAT | DOUBLE
  | STRING | DATE | TIMESTAMP | TIMESTAMPLOCALTZ | BINARY | DECIMAL
  | VARCHAR | CHAR | INTERVAL_YEAR_MONTH | INTERVAL_DAY_TIME | UNKNOWN
deriving DecidableEq, Repr

/-- `Modelled from the spec:` the type-node variants of §3 (the `HType`
hierarchy of the missing `htypes` module), one sum type with per-variant
payloads as §9 prescribes. -/
inductive HType where
  | HPrimitiveType (category : PrimitiveCategory)
  | HDecimalType (precision : Nat) (scale : Nat)
  | HCharType (length : Nat)
  | HVarcharType (length : Nat)
  | HListType (element : HType)
  | HMapType (key : HType) (value : HType)
  | HStructType (names : List String) (types : List HType)
  | HUnionType (types : List HType)

/-! ### Parser (modelled from the spec, §4.2) -/

/-- `Modelled from the spec:` the primitive-keyword table (§6): the
upper-cased word token's text against the primitive names, with the
alternative spellings tinyint/smallint/bigint. -/
def parsePrimitiveKeyword (s : String) : Option PrimitiveCategory :=
  match s with
  | "VOID" => some .VOID
  | "BOOLEAN" => some .BOOLEAN
  | "BYTE" => some .BYTE
  | "TINYINT" => some .BYTE
  | "SHORT" => some .SHORT
  | "SMALLINT" => some .SHORT
  | "INT" => some .INT
  | "LONG" => some .LONG
  | "BIGINT" => some .LONG
  | "FLOAT" => some .FLOAT
  | "DOUBLE" => some .DOUBLE
  | "STRING" => some .STRING
  | "DATE" => some .DATE
  | "TIMESTAMP" => some .TIMESTAMP
  | "BINARY" => some .BINARY
  | "INTERVAL_YEAR_MONTH" => some .INTERVAL_YEAR_MONTH
  | "INTERVAL_DAY_TIME" => some .INTERVAL_DAY_TIME
  | _ => none

/-- Consume one expected punctuation token, else a grammar failure (§7). -/
def expectPunct (p : String) : List Token → Except String (List Token)
  | t :: rest =>
      if t.isWord = false && t.text = p then .ok rest
      else .error ("expected " ++ p ++ " but found " ++ t.text)
  | [] => .error ("expected " ++ p ++ " but reached end of input")

/-- Consume one word token, else a grammar failure (§7). -/
def nextWord : List Token → Except String (String × List Token)
  | t :: rest =>
      if t.isWord then .ok (t.text, rest)
      else .error ("expected a word token but found " ++ t.text)
  | [] => .error "expected a word token but reached end of input"

/-- `Modelled from the spec:` upper-casing of a word token's text for the
case-insensitive keyword comparison (§4.2), written character-wise. -/
def toUpperStr (s : String) : String :=
  String.mk (s.data.map Char.toUpper)

/-- Decimal-numeral reading on a character list, accumulator style. -/
def digitsToNat : List Char → Nat → Option Nat
  | [], acc => some acc
  | c :: rest, acc =>
      if c.isDigit then digitsToNat rest (acc * 10 + (c.toNat - 48))
      else none

/-- Read a numeric parameter token as a natural number, else a grammar
failure (the `INT` terminal of the grammar). -/
def toNatE (s : String) : Except String Nat :=
  match s.data with
  | [] => .error ("invalid numeric parameter: " ++ s)
  | cs =>
      match digitsToNat cs 0 with
      | some n => .ok n
      | none => .error ("invalid numeric parameter: " ++ s)

/-- `Modelled from the spec:` the `"(" INT ("," INT)* ")"` parameter list
body, entered after the `"("` has been consumed.  Fuel bounds the loop. -/
def parseParamItems : Nat → List Token → Except String (List String × List Token)
  | 0, _ => .error "parameter list too long"
  | Nat.succ fuel, tokens => do
      let (w, r1) ← nextWord tokens
      match r1 with
      | t :: r2 =>
          if t.isWord = false && t.text = "," then do
            let (ws, r3) ← parseParamItems fuel r2
            .ok (w :: ws, r3)
          else if t.isWord = false && t.text = ")" then
            .ok ([w], r2)
          else
            .error ("expected , or ) but found " ++ t.text)
      | [] => .error "premature end of input in parameter list"

/-- `Modelled from the spec:` the optional parameter list of
decimal/char/varchar: `none` when the next token is not `"("`. -/
def parseParams (tokens : List Token) :
    Except String (Option (List String) × List Token) :=
  match tokens with
  | t :: rest =>
      if t.isWord = false && t.text = "(" then do
        let (ps, r) ← parseParamItems (rest.length + 1) rest
        .ok (some ps, r)
      else .ok (none, t :: rest)
  | [] => .ok (none, [])

/-- `Modelled from the spec:` decimal validation (§4.2): no parameter list
gives precision 10, scale 0; one parameter gives the precision with scale
0; two give both; precision is checked against 38 before scale. -/
def mkDecimal (params : Option (List String)) : Except String HType :=
  match params with
  | none => .ok (.HDecimalType 10 0)
  | some [p] => do
      let pn ← toNatE p
      if pn > 38 then .error "Decimal precision cannot exceed 38"
      else .ok (.HDecimalType pn 0)
  | some [p, s] => do
      let pn ← toNatE p
      let sn ← toNatE s
      if pn > 38 then .error "Decimal precision cannot exceed 38"
      else if sn > 38 then .error "Decimal scale cannot exceed 38"
      else .ok (.HDecimalType pn sn)
  | some _ => .error "decimal type takes at most two parameters"

/-- `Modelled from the spec:` char validation (§4.2): the parameter list is
mandatory, exactly one parameter, length bound 255; a wrong count reports
the actual count observed (error wording from the reference tests). -/
def mkChar (params : Option (List String)) : Except String HType :=
  match params with
  | none => .error "char/varchar type must have a length specified"
  | some [l] => do
      let n ← toNatE l
      if n > 255 then .error "Char length cannot exceed 255"
      else .ok (.HCharType n)
  | some ps =>
      .error ("Error: char type takes only one parameter, but instead "
        ++ toString ps.length ++ " parameters are found.")

/-- `Modelled from the spec:` varchar validation (§4.2), bound 65535. -/
def mkVarchar (params : Option (List String)) : Except String HType :=
  match params with
  | none => .error "char/varchar type must have a length specified"
  | some [l] => do
      let n ← toNatE l
      if n > 65535 then .error "Varchar length cannot exceed 65535"
      else .ok (.HVarcharType n)
  | some ps =>
      .error ("Error: varchar type takes only one parameter, but instead "
        ++ toString ps.length ++ " parameters are found.")

mutual

/-- `Modelled from the spec:` `parseType(tokens, cursor)` (§4.2), the
recursive-descent entry.  The word token's text is upper-cased for the
case-insensitive keyword match; compound keywords dispatch to their body
rules, any other word must be a primitive name.  Fuel bounds the
recursion; the top-level caller passes more fuel than there are tokens,
which suffices because every recursive call consumes at least one token
first. -/
def parse_type : Nat → List Token → Except String (HType × List Token)
  | 0, _ => .error "recursion limit exceeded"
  | Nat.succ fuel, tokens => do
      let (w, rest) ← nextWord tokens
      let kw := toUpperStr w
      if kw = "DECIMAL" then do
        let (params, r2) ← parseParams rest
        let t ← mkDecimal params
        .ok (t, r2)
      else if kw = "CHAR" then do
        let (params, r2) ← parseParams rest
        let t ← mkChar params
        .ok (t, r2)
      else if kw = "VARCHAR" then do
        let (params, r2) ← parseParams rest
        let t ← mkVarchar params
        .ok (t, r2)
      else if kw = "ARRAY" then do
        let r2 ← expectPunct "<" rest
        let (elem, r3) ← parse_type fuel r2
        let r4 ← expectPunct ">" r3
        .ok (.HListType elem, r4)
      else if kw = "MAP" then do
        let r2 ← expectPunct "<" rest
        let (k, r3) ← parse_type fuel r2
        let r4 ← expectPunct "," r3
        let (v, r5) ← parse_type fuel r4
        let r6 ← expectPunct ">" r5
        .ok (.HMapType k v, r6)
      else if kw = "STRUCT" then do
        let r2 ← expectPunct "<" rest
        let (names, types, r3) ← parseStructFields fuel r2
        .ok (.HStructType names types, r3)
      else if kw = "UNIONTYPE" then do
        let r2 ← expectPunct "<" rest
        let (types, r3) ← parseUnionAlts fuel r2
        .ok (.HUnionType types, r3)
      else
        match parsePrimitiveKeyword kw with
        | some c => .ok (.HPrimitiveType c, rest)
        | none => .error ("unknown type keyword: " ++ w)
termination_by structural fuel _ => fuel

/-- `Modelled from the spec:` the struct body `WORD ":" type ("," WORD ":"
type)* ">"`, entered after the `"<"` has been consumed. -/
def parseStructFields : Nat → List Token →
    Except String (List String × List HType × List Token)
  | 0, _ => .error "recursion limit exceeded"
  | Nat.succ fuel, tokens => do
      let (name, r1) ← nextWord tokens
      let r2 ← expectPunct ":" r1
      let (t, r3) ← parse_type fuel r2
      match r3 with
      | tk :: r4 =>
          if tk.isWord = false && tk.text = "," then do
            let (names, types, r5) ← parseStructFields fuel r4
            .ok (name :: names, t :: types, r5)
          else if tk.isWord = false && tk.text = ">" then
            .ok ([name], [t], r4)
          else .error ("expected , or > but found " ++ tk.text)
      | [] => .error "premature end of input in struct type body"
termination_by structural fuel _ => fuel

/-- `Modelled from the spec:` the uniontype body `type ("," type)* ">"`,
entered after the `"<"` has been consumed. -/
def parseUnionAlts : Nat → List Token →
    Except String (List HType × List Token)
  | 0, _ => .error "recursion limit exceeded"
  | Nat.succ fuel, tokens => do
      let (t, r1) ← parse_type fuel tokens
      match r1 with
      | tk :: r2 =>
          if tk.isWord = false && tk.text = "," then do
            let (ts, r3) ← parseUnionAlts fuel r2
            .ok (t :: ts, r3)
          else if tk.isWord = false && tk.text = ">" then
            .ok ([t], r2)
          else .error ("expected , or > but found " ++ tk.text)
      | [] => .error "premature end of input in uniontype body"
termination_by structural fuel _ => fuel

end

/-- `Modelled from the spec:` the top-level entry: tokenize the descriptor
string, then parse exactly one complete type from the cursor (§4.2). -/
def parse (s : String) : Except String HType := do
  let tokens := tokenize s
  let (t, _) ← parse_type (tokens.length + 1) tokens
  .ok t

/-! ### metastore.py: sorting order and sorting columns

`HSortingOrder` is a plain Python `Enum` (metastore.py lines 71-73) with
`ASC = 1`, `DESC = 0`.  A plain `Enum` member compares equal only to
itself: `1 == HSortingOrder.ASC` is `False` in Python.  `PySortVal` is the
universe of values the thrift `Order.order` field can hold (the wire
encoding is an integer; the enum member alternative exists only so that
the cross-type `==` of the source can be expressed), and `pyEqSort` is
Python `==` on that universe. -/

inductive HSortingOrder where
  | ASC
  | DESC
deriving DecidableEq

/-- The Python enum values: `ASC = 1`, `DESC = 0`. -/
def HSortingOrder.value : HSortingOrder → Int
  | .ASC => 1
  | .DESC => 0

inductive PySortVal where
  | int (n : Int)
  | enum (e : HSortingOrder)
deriving DecidableEq

/-- Python `==` on `PySortVal`: integers compare by value, plain-`Enum`
members by identity, and an integer never equals an enum member. -/
def pyEqSort : PySortVal → PySortVal → Bool
  | .int a, .int b => decide (a = b)
  | .enum a, .enum b => decide (a = b)
  | _, _ => false

/-- The thrift `Order` record: a column name and the wire order field. -/
structure Order where
  col : String
  order : PySortVal
deriving DecidableEq

structure HSortingColumn where
  column : String
  order : HSortingOrder
deriving DecidableEq

/-- `HSortingColumn.__init__` (metastore.py lines 76-82): the column is
`order.col`; the order is `ASC` when `order.order == HSortingOrder.ASC`
holds under Python `==`, else `DESC`. -/
def HSortingColumn.ofOrder (o : Order) : HSortingColumn :=
  { column := o.col
  , order :=
      if pyEqSort o.order (PySortVal.enum HSortingOrder.ASC) then HSortingOrder.ASC
      else HSortingOrder.DESC }

/-! ### metastore.py: the shared mutable default of HiveBucketProperty

`HiveBucketProperty.__init__` (metastore.py lines 90-101) declares
`sorting_columns: List[HSortingColumn] = []`.  CPython evaluates that
default expression once, when the `def` is executed, producing a single
list object; every call that omits the argument binds the parameter to
that same object.  The model below makes the object identity explicit:
a `PyHeap` maps references (naturals) to list contents, and the field
`sorting_columns` of the constructed instance stores a reference.
`defaultListRef` is the reference of the one default list object. -/

inductive BucketingVersion where
  | V1
  | V2
deriving DecidableEq

/-- The Python enum values: `V1 = 1`, `V2 = 2`. -/
def BucketingVersion.value : BucketingVersion → Int
  | .V1 => 1
  | .V2 => 2

structure PyHeap where
  lists : Nat → List HSortingColumn

def PyHeap.read (h : PyHeap) (r : Nat) : List HSortingColumn :=
  h.lists r

def PyHeap.write (h : PyHeap) (r : Nat) (v : List HSortingColumn) : PyHeap :=
  ⟨fun j => if j = r then v else h.lists j⟩

namespace DefaultArgModel

structure HiveBucketProperty where
  bucketed_by : List String
  bucket_count : Int
  version : BucketingVersion
  sorting_columns : Nat
deriving DecidableEq

/-- The reference to the single default list object created when the
`def __init__` was executed. -/
def defaultListRef : Nat := 0

/-- `HiveBucketProperty.__init__` under CPython argument passing: an
omitted `sorting_columns` argument (`Option.none`) binds the parameter to
the shared default object, never to a fresh list. -/
def mkHiveBucketProperty (bucketed_by : List String) (bucket_count : Int)
    (version : BucketingVersion) (sorting_columns : Option Nat) :
    HiveBucketProperty :=
  { bucketed_by := bucketed_by
  , bucket_count := bucket_count
  , version := version
  , sorting_columns := sorting_columns.getD defaultListRef }

end DefaultArgModel

/-! ### metastore.py: HMS.get_partitions (lines 259-360)

Thrift records carry optional fields; the conversion loop branches on
their `None`-ness.  The value-level structures below are the domain
classes of metastore.py; `StorageFormat`, `HiveBucketProperty` and
`HStorage` are parameterized by the payload types actually stored at the
call site, because Python is untyped there: in particular
`get_partitions` stores the whole `Partition` object in the serde slot
(the `serialization_lib = partition` line) and raw thrift `Order` records
in the sorting-columns slot. -/

structure SerDeInfo where
  serializationLib : Option String
  parameters : Option (List (String × String))
deriving DecidableEq

structure StorageDescriptor where
  serdeInfo : Option SerDeInfo
  inputFormat : Option String
  outputFormat : Option String
  bucketCols : Option (List String)
  sortCols : Option (List Order)
  numBuckets : Option Int
  skewedInfo : Option Unit
  location : Option String
deriving DecidableEq

structure Partition where
  dbName : String
  tableName : String
  values : List String
  parameters : List (String × String)
  createTime : Int
  lastAccessTime : Int
  sd : StorageDescriptor
  catName : String
  writeId : Int
deriving DecidableEq

/-- The values the serde slot receives in `get_partitions`: the empty
string when `serializationLib` is `None`, otherwise the whole partition
object (that is what the source assigns). -/
inductive SerdeLibVal where
  | str (s : String)
  | partitionObj (p : Partition)

structure StorageFormat (α : Type) where
  serde : α
  input_format : String
  output_format : String

structure HiveBucketProperty (σ : Type) where
  bucketed_by : List String
  bucket_count : Int
  version : BucketingVersion
  sorting_columns : List σ

structure HStorage (α σ : Type) where
  storage_format : StorageFormat α
  skewed : Bool
  location : Option String
  bucket_property : Option (HiveBucketProperty σ)
  serde_parameters : Option (List (String × String))

structure HPartition (α σ : Type) where
  database_name : String
  table_name : String
  values : List String
  parameters : List (String × String)
  create_time : Int
  last_access_time : Int
  sd : HStorage α σ
  cat_name : String
  write_id : Int

/-- The body of the conversion loop of `HMS.get_partitions` (metastore.py
lines 270-358).  A partition whose `sd.serdeInfo` is `None` is skipped
silently (the source has no `else` for that test); the `isinstance`
checks of the source always succeed in this typed embedding, so their
`raise` branches disappear.  When `serializationLib` is present the
source assigns the whole `partition` object to `serialization_lib`;
when it is `None` it assigns `""`. -/
def convertPartition (partition : Partition) :
    Option (HPartition SerdeLibVal Order) :=
  match partition.sd.serdeInfo with
  | Option.none => Option.none
  | some si =>
      let serialization_lib : SerdeLibVal :=
        match si.serializationLib with
        | some _ => SerdeLibVal.partitionObj partition
        | Option.none => SerdeLibVal.str ""
      let input_format := (partition.sd.inputFormat).getD ""
      let output_format := (partition.sd.outputFormat).getD ""
      let storage_format : StorageFormat SerdeLibVal :=
        ⟨serialization_lib, input_format, output_format⟩
      let bucket_cols := (partition.sd.bucketCols).getD []
      let sort_cols := (partition.sd.sortCols).getD []
      let num_buckets := (partition.sd.numBuckets).getD 0
      let bucket_property : HiveBucketProperty Order :=
        ⟨bucket_cols, num_buckets, BucketingVersion.V1, sort_cols⟩
      let is_skewed := partition.sd.skewedInfo.isSome
      let sd : HStorage SerdeLibVal Order :=
        ⟨storage_format, is_skewed, partition.sd.location,
          some bucket_property, si.parameters⟩
      some ⟨partition.dbName, partition.tableName, partition.values,
        partition.parameters, partition.createTime, partition.lastAccessTime,
        sd, partition.catName, partition.writeId⟩

/-- The universe of values the thrift client's `get_partitions` call can
return: `None` or a list of partitions. -/
inductive PyPartitions where
  | none
  | list (ps : List Partition)

/-- Python `partitions is None`. -/
def PyPartitions.isNone : PyPartitions → Bool
  | .none => true
  | .list _ => false

/-- Python `isinstance(partitions, List)`: `None` is not a list instance. -/
def PyPartitions.isList : PyPartitions → Bool
  | .none => false
  | .list _ => true

def PyPartitions.toList : PyPartitions → List Partition
  | .none => []
  | .list ps => ps

/-- `HMS.get_partitions` (metastore.py lines 259-360) given the value the
client call returned: `result_partitions = []`, then the conversion loop
guarded by `if partitions is None:` followed immediately by
`if isinstance(partitions, List):`, then `return result_partitions`. -/
def get_partitions (fetched : PyPartitions) :
    List (HPartition SerdeLibVal Order) :=
  if fetched.isNone then
    if fetched.isList then
      (fetched.toList).filterMap convertPartition
    else []
  else []

/-! ### metastore.py: the bucketing version in HMS.get_table (lines 659-704) -/

/-- The values compared in the version test of `HMS.get_table`: the dict
lookup yields the stored string when the key is present, and the enum
default `BucketingVersion.V1` when it is absent. -/
inductive PyParamVal where
  | str (s : String)
  | ver (v : BucketingVersion)
deriving DecidableEq

/-- Python `==` on `PyParamVal`: strings compare by value, plain-`Enum`
members by identity, and a string never equals an enum member. -/
def pyEqVer : PyParamVal → PyParamVal → Bool
  | .str a, .str b => decide (a = b)
  | .ver a, .ver b => decide (a = b)
  | _, _ => false

/-- Python `dict.get` on a string-valued parameters dict. -/
def lookupParam (ps : List (String × String)) (k : String) : Option String :=
  (ps.find? (fun p => decide (p.1 = k))).map (fun p => p.2)

/-- metastore.py lines 671-688: `version = BucketingVersion.V1`; a `None`
parameters dict raises `TypeError`; otherwise
`table.parameters.get("TABLE_BUCKETING_VERSION", BucketingVersion.V1)` is
compared with `==` against `BucketingVersion.V2`, and on success the
version becomes `V2`. -/
def tableBucketingVersion (parameters : Option (List (String × String))) :
    Except String BucketingVersion :=
  match parameters with
  | Option.none => .error "Expected parameters to be dict, got None"
  | some ps =>
      let looked : PyParamVal :=
        match lookupParam ps "TABLE_BUCKETING_VERSION" with
        | some s => PyParamVal.str s
        | Option.none => PyParamVal.ver BucketingVersion.V1
      if pyEqVer looked (PyParamVal.ver BucketingVersion.V2) then
        .ok BucketingVersion.V2
      else .ok BucketingVersion.V1

/-- metastore.py lines 661-669: the sorting columns passed to the bucket
property, converted through `HSortingColumn`; a `None` `sortCols` leaves
the accumulator empty. -/
def sortColsOf (sortCols : Option (List Order)) : List HSortingColumn :=
  match sortCols with
  | Option.none => []
  | some l => l.map HSortingColumn.ofOrder

/-- metastore.py lines 659-704: in `HMS.get_table` the bucket property is
built only when `table.sd.bucketCols` is not `None`, with the version
computed by `tableBucketingVersion` and the converted sorting columns. -/
def get_table_bucket_property (bucketCols : Option (List String))
    (sortCols : Option (List Order))
    (parameters : Option (List (String × String)))
    (num_buckets : Int) :
    Except String (Option (HiveBucketProperty HSortingColumn)) :=
  match bucketCols with
  | Option.none => .ok Option.none
  | some cols => do
      let version ← tableBucketingVersion parameters
      .ok (some ⟨cols, num_buckets, version, sortColsOf sortCols⟩)

/-! ## Claim theorems -/

/-- C1: `parse_type` on `"array<int>"`, `"map<string,int>"`,
`"struct<name:string,age:int>"` and `"uniontype<int,string>"` returns
respectively a list node whose element is the INT primitive; a map node
with STRING key and INT value; a struct node with ordered field names
`["name", "age"]` and field types `[STRING, INT]`; and a union node with
ordered alternatives `[INT, STRING]`; and the same strings with the
compound keyword upper-cased parse to equal trees (keyword matching is
case-insensitive). -/
theorem compound_type_parse_C1 :
    parse "array<int>" = .ok (.HListType (.HPrimitiveType .INT))
    ∧ parse "map<string,int>"
        = .ok (.HMapType (.HPrimitiveType .STRING) (.HPrimitiveType .INT))
    ∧ parse "struct<name:string,age:int>"
        = .ok (.HStructType ["name", "age"]
            [.HPrimitiveType .STRING, .HPrimitiveType .INT])
    ∧ parse "uniontype<int,string>"
        = .ok (.HUnionType [.HPrimitiveType .INT, .HPrimitiveType .STRING])
    ∧ parse "ARRAY<int>" = parse "array<int>"
    ∧ parse "MAP<string,int>" = parse "map<string,int>"
    ∧ parse "STRUCT<name:string,age:int>" = parse "struct<name:string,age:int>"
    ∧ parse "UNIONTYPE<int,string>" = parse "uniontype<int,string>" :=
  ⟨rfl, rfl, rfl, rfl, rfl, rfl, rfl, rfl⟩

/-- C2: `parse_type` on `"decimal"` returns a decimal node with precision
10 and scale 0; on `"decimal(20)"` precision 20 and scale 0; on
`"decimal(20,10)"` precision 20 and scale 10. -/
theorem decimal_defaults_C2 :
    parse "decimal" = .ok (.HDecimalType 10 0)
    ∧ parse "decimal(20)" = .ok (.HDecimalType 20 0)
    ∧ parse "decimal(20,10)" = .ok (.HDecimalType 20 10) :=
  ⟨rfl, rfl, rfl⟩

/-- C3: decimal precision is validated against 38 before scale:
`"decimal(39,0)"` fails with the precision error, `"decimal(37,40)"` with
the scale error, and `"decimal(39,40)"` — both out of bounds — with the
precision error, not the scale error. -/
theorem decimal_bound_order_C3 :
    parse "decimal(39,0)" = .error "Decimal precision cannot exceed 38"
    ∧ parse "decimal(37,40)" = .error "Decimal scale cannot exceed 38"
    ∧ parse "decimal(39,40)" = .error "Decimal precision cannot exceed 38" :=
  ⟨rfl, rfl, rfl⟩

/-- C4: for char and varchar the parameter list is mandatory and exactly
one parameter is accepted: `"char"` and `"varchar"` fail with the
length-must-be-specified error; `"char(10,20)"` and `"varchar(10,20)"`
fail reporting that 2 parameters are found; `"char(65536)"` and
`"varchar(65536)"` fail with the bound-specific messages (255 for char,
65535 for varchar); `"char(10)"` and `"varchar(10)"` succeed with
length 10. -/
theorem char_varchar_params_C4 :
    parse "char" = .error "char/varchar type must have a length specified"
    ∧ parse "varchar" = .error "char/varchar type must have a length specified"
    ∧ parse "char(10,20)"
        = .error "Error: char type takes only one parameter, but instead 2 parameters are found."
    ∧ parse "varchar(10,20)"
        = .error "Error: varchar type takes only one parameter, but instead 2 parameters are found."
    ∧ parse "char(65536)" = .error "Char length cannot exceed 255"
    ∧ parse "varchar(65536)" = .error "Varchar length cannot exceed 65535"
    ∧ parse "char(10)" = .ok (.HCharType 10)
    ∧ parse "varchar(10)" = .ok (.HVarcharType 10) :=
  ⟨rfl, rfl, rfl, rfl, rfl, rfl, rfl, rfl⟩

/-- C5: tokenizing `"STRUCT<a:INT,b:STRING>"` yields exactly this sequence
of 10 tokens, each carrying the offset of its first character and its
word/punctuation classification. -/
theorem tokenize_struct_C5 :
    tokenize "STRUCT<a:INT,b:STRING>" =
      [⟨0, "STRUCT", true⟩, ⟨6, "<", false⟩, ⟨7, "a", true⟩, ⟨8, ":", false⟩,
       ⟨9, "INT", true⟩, ⟨12, ",", false⟩, ⟨13, "b", true⟩, ⟨14, ":", false⟩,
       ⟨15, "STRING", true⟩, ⟨21, ">", false⟩] :=
  rfl

/-- C6: constructing a token with absent (`None`) or empty text fails
immediately with a `ValueError`, and every successfully constructed token
with position `p` and non-empty text `t` renders canonically as
`"p:t"`. -/
theorem token_contract_C6 :
    (∀ (p : Nat) (w : Bool),
      Token.create p Option.none w
        = .error "ValueError: token text cannot be empty or None")
    ∧ (∀ (p : Nat) (w : Bool),
      Token.create p (some "") w
        = .error "ValueError: token text cannot be empty or None")
    ∧ (∀ (p : Nat) (t : String) (w : Bool), t ≠ "" →
      Token.create p (some t) w = .ok ⟨p, t, w⟩
      ∧ Token.str ⟨p, t, w⟩ = toString p ++ ":" ++ t) := by
  refine ⟨fun p w => rfl, fun p w => rfl, fun p t w ht => ⟨?_, rfl⟩⟩
  simp [Token.create, ht]

/-- C6, witness: the token of the reference test, position 0 and text
`"double"`, is constructed successfully and renders as `"0:double"`. -/
theorem token_contract_C6_witness :
    Token.create 0 (some "double") true = .ok ⟨0, "double", true⟩
    ∧ Token.str ⟨0, "double", true⟩ = "0:double" := by
  have h := token_contract_C6.2.2 0 "double" true (by decide)
  exact ⟨h.1, h.2⟩

/-- C7: two `HiveBucketProperty` instances constructed without an explicit
`sorting_columns` argument hold one and the same default list object, so
a mutation performed through one instance's `sorting_columns` field is
observable through the other instance's field. -/
theorem shared_default_list_C7 :
    ∀ (bb bb' : List String) (bc bc' : Int) (v v' : BucketingVersion)
      (h : PyHeap) (xs : List HSortingColumn),
      (DefaultArgModel.mkHiveBucketProperty bb bc v Option.none).sorting_columns
        = (DefaultArgModel.mkHiveBucketProperty bb' bc' v' Option.none).sorting_columns
      ∧ (h.write
            (DefaultArgModel.mkHiveBucketProperty bb bc v Option.none).sorting_columns
            xs).read
          (DefaultArgModel.mkHiveBucketProperty bb' bc' v' Option.none).sorting_columns
        = xs := by
  intro bb bb' bc bc' v v' h xs
  exact ⟨rfl, by simp [PyHeap.read, PyHeap.write, DefaultArgModel.mkHiveBucketProperty]⟩

/-- C8: for every value the client call can return (`None`, the empty
list, or a non-empty list of partitions), `HMS.get_partitions` returns
the empty list: the conversion loop sits under `partitions is None` and
`isinstance(partitions, List)` simultaneously, which no value satisfies. -/
theorem get_partitions_empty_C8 :
    ∀ fetched : PyPartitions, get_partitions fetched = [] := by
  intro fetched
  cases fetched <;> rfl

/-- C9: for every `Order` record whose `order` field carries the integer
wire encoding, `HSortingColumn` sets the order to `DESC` — including when
the field is `1` (the ASC wire value) — because the integer is compared
with `==` against the plain-`Enum` member `HSortingOrder.ASC`, which
never holds. -/
theorem sorting_order_always_desc_C9 :
    ∀ (c : String) (n : Int),
      (HSortingColumn.ofOrder ⟨c, PySortVal.int n⟩).order = HSortingOrder.DESC := by
  intro c n
  rfl

/-- C10: in `HMS.get_table`, whenever a bucket property is built (the
`bucketCols` field is not `None`) its version is `BucketingVersion.V1`,
for every string-valued `"TABLE_BUCKETING_VERSION"` parameter present or
absent: the looked-up value is a string (or the enum default `V1`) and
its `==` comparison against the member `V2` never holds. -/
theorem bucketing_version_always_V1_C10 :
    ∀ (cols : List String) (sortCols : Option (List Order))
      (ps : List (String × String)) (nb : Int),
      get_table_bucket_property (some cols) sortCols (some ps) nb
        = .ok (some ⟨cols, nb, BucketingVersion.V1, sortColsOf sortCols⟩) := by
  intro cols sortCols ps nb
  unfold get_table_bucket_property tableBucketingVersion
  cases hl : lookupParam ps "TABLE_BUCKETING_VERSION" <;>
    simp [hl, pyEqVer] <;> rfl

end PyMetastore
